import Mathlib

/-!
Shallow embedding of internal/collector/bpf/probe.c (traffic-guardian).

The C file declares one record type, struct traffic_event; one
BPF_MAP_TYPE_PERF_EVENT_ARRAY map, events; and two kprobe handlers:
probe_tx attached at SEC("kprobe/net_dev_start_xmit") and probe_rx attached
at SEC("kprobe/netif_receive_skb").  Each handler reads the current task's
combined pid/tgid word with bpf_get_current_pid_tgid, takes the high 32
bits as pid, zero-initializes a traffic_event on the stack, fills pid,
bytes (from skb->len), is_tx (true in probe_tx, false in probe_rx) and
comm (via bpf_get_current_comm into the fixed 16-byte field), publishes
the record once with bpf_perf_event_output, ignores that call's result and
returns 0.

Machine integers are modelled as Nat with explicit reductions mod 2 ^ 64
(the u64 pid/tgid word) and mod 2 ^ 32 (the u32 pid and the u32 skb->len
field).  The per-CPU perf buffer is modelled as a bounded FIFO list plus a
ghost log of publish attempts, so that "exactly one publish attempt, never
retried" is a provable statement rather than an assumption.
-/

set_option maxHeartbeats 1000000

/-- #define TASK_COMM_LEN 16 -/
def TASK_COMM_LEN : Nat := 16

/-- struct traffic_event: the fixed-size record sent to userspace.
Field order follows the C declaration: u64 bytes; u32 pid;
char comm[TASK_COMM_LEN]; bool is_tx. -/
structure traffic_event where
  bytes : Nat
  pid : Nat
  comm : List Nat
  is_tx : Bool
deriving DecidableEq

/-- `struct traffic_event event = {};` — C zero-initialization: every
field (and every comm byte) starts as zero/false. -/
def traffic_event.zeroed : traffic_event :=
  { bytes := 0, pid := 0, comm := List.replicate TASK_COMM_LEN 0, is_tx := false }

/-- The kernel execution context visible to a handler at hook time:
the current task's combined (tgid, tid) word, the current task's
command-name bytes, and the hooked sk_buff's len field (a u32). -/
structure BpfCtx where
  pid_tgid : Nat
  task_comm : List Nat
  skb_len : Nat
deriving DecidableEq

/-- bpf_get_current_pid_tgid(): returns the u64 word whose high 32 bits
are the thread-group id and whose low 32 bits are the thread id. -/
def bpf_get_current_pid_tgid (ctx : BpfCtx) : Nat := ctx.pid_tgid % 2 ^ 64

/-- bpf_get_current_comm(&buf, size): copies at most size bytes of the
current task's command name into the fixed buffer, zero-filling the rest;
a name of size bytes or more is truncated. -/
def bpf_get_current_comm (ctx : BpfCtx) (size : Nat) : List Nat :=
  ctx.task_comm.take size ++ List.replicate (size - ctx.task_comm.length) 0

/-- The events perf map, restricted to the current CPU's ring: a bounded
FIFO of accepted records, plus a ghost log of every publish attempt. -/
structure Transport where
  buf : List traffic_event
  cap : Nat
  attempts : List traffic_event
deriving DecidableEq

/-- bpf_perf_event_output(ctx, &events, BPF_F_CURRENT_CPU, &e, sizeof e):
a single bounded copy into the current CPU's ring; appends the record if
the ring has room, otherwise drops it and returns a negative error code
(-ENOSPC).  Every call is logged as one attempt. -/
def bpf_perf_event_output (t : Transport) (e : traffic_event) : Transport × Int :=
  if t.buf.length < t.cap then
    ({ t with buf := t.buf ++ [e], attempts := t.attempts ++ [e] }, 0)
  else
    ({ t with attempts := t.attempts ++ [e] }, -28)

/-- SEC("kprobe/net_dev_start_xmit") int BPF_KPROBE(probe_tx, struct sk_buff *skb).
Faithful to the C body: read pid_tgid, shift to get the tgid, zero-init
the event, assign pid, bytes, is_tx := true, comm, publish once (result
discarded), return 0. -/
def probe_tx (ctx : BpfCtx) (t : Transport) : Transport × Int :=
  let id : Nat := bpf_get_current_pid_tgid ctx
  let pid : Nat := (id >>> 32) % 2 ^ 32
  let event : traffic_event := traffic_event.zeroed
  let event := { event with pid := pid }
  let event := { event with bytes := ctx.skb_len % 2 ^ 32 }
  let event := { event with is_tx := true }
  let event := { event with comm := bpf_get_current_comm ctx TASK_COMM_LEN }
  ((bpf_perf_event_output t event).fst, 0)

/-- SEC("kprobe/netif_receive_skb") int BPF_KPROBE(probe_rx, struct sk_buff *skb).
Identical to probe_tx except is_tx := false. -/
def probe_rx (ctx : BpfCtx) (t : Transport) : Transport × Int :=
  let id : Nat := bpf_get_current_pid_tgid ctx
  let pid : Nat := (id >>> 32) % 2 ^ 32
  let event : traffic_event := traffic_event.zeroed
  let event := { event with pid := pid }
  let event := { event with bytes := ctx.skb_len % 2 ^ 32 }
  let event := { event with is_tx := false }
  let event := { event with comm := bpf_get_current_comm ctx TASK_COMM_LEN }
  ((bpf_perf_event_output t event).fst, 0)

/-- The two hook handlers declared in probe.c. -/
inductive Hook where
  | tx
  | rx
deriving DecidableEq

/-- How each handler is attached: both SEC strings in the source are
kprobe sections. -/
inductive AttachKind where
  | kprobe
  | tracepoint
deriving DecidableEq

/-- The SEC(...) string of each handler, as written in the source. -/
def hookSection : Hook → String
  | Hook.tx => "kprobe/net_dev_start_xmit"
  | Hook.rx => "kprobe/netif_receive_skb"

def hookAttach : Hook → AttachKind
  | Hook.tx => AttachKind.kprobe
  | Hook.rx => AttachKind.kprobe

/-- The handlers present in the source file, in declaration order. -/
def sourceHooks : List Hook := [Hook.tx, Hook.rx]

/-- Dispatch a hook firing to its handler. -/
def runHook : Hook → BpfCtx → Transport → Transport × Int
  | Hook.tx => probe_tx
  | Hook.rx => probe_rx

/-- The records a single hook firing attempts to publish: the new suffix
of the attempt log. -/
def emitted (h : Hook) (ctx : BpfCtx) (t : Transport) : List traffic_event :=
  ((runHook h ctx t).fst.attempts).drop t.attempts.length

/-- Shape of a record type declared in the source: whether it carries a
direction flag and whether it carries a command-name field. -/
structure RecordShape where
  hasDirection : Bool
  hasComm : Bool
deriving DecidableEq

/-- The record types declared in probe.c: only struct traffic_event,
which has both the is_tx direction flag and the comm field. -/
def sourceRecordShapes : List RecordShape :=
  [{ hasDirection := true, hasComm := true }]

/-- Concrete hook context used by witnesses: thread-group id 5, thread id
7, command name "curl", skb->len 1500. -/
def ctx0 : BpfCtx :=
  { pid_tgid := 5 * 2 ^ 32 + 7, task_comm := [99, 117, 114, 108], skb_len := 1500 }

/-- An empty transport with room for eight records. -/
def t0 : Transport := { buf := [], cap := 8, attempts := [] }

/-- The record probe_tx builds in context ctx0. -/
def e0 : traffic_event :=
  { bytes := 1500, pid := 5, comm := [99, 117, 114, 108] ++ List.replicate 12 0,
    is_tx := true }

/-- The record probe_rx builds in context ctx0. -/
def e0rx : traffic_event := { e0 with is_tx := false }

/-- A transport whose ring has no room: every publish is dropped. -/
def tFull : Transport := { buf := [], cap := 0, attempts := [] }

/-- Hook context of the idle task: the combined pid/tgid word is 0, as
happens when netif_receive_skb runs in softirq context on an otherwise
idle CPU (task "swapper"). -/
def ctxIdle : BpfCtx :=
  { pid_tgid := 0, task_comm := [115, 119, 97, 112, 112, 101, 114], skb_len := 60 }

/-- The record probe_rx builds in context ctxIdle. -/
def eIdle : traffic_event :=
  { bytes := 60, pid := 0,
    comm := [115, 119, 97, 112, 112, 101, 114] ++ List.replicate 9 0,
    is_tx := false }

/-! ### Helper lemmas -/

lemma emitted_tx (ctx : BpfCtx) (t : Transport) :
    emitted Hook.tx ctx t =
      [{ bytes := ctx.skb_len % 2 ^ 32,
         pid := (bpf_get_current_pid_tgid ctx >>> 32) % 2 ^ 32,
         comm := bpf_get_current_comm ctx TASK_COMM_LEN,
         is_tx := true }] := by
  unfold emitted runHook probe_tx bpf_perf_event_output
  by_cases hcap : t.buf.length < t.cap <;> simp [hcap]

lemma emitted_rx (ctx : BpfCtx) (t : Transport) :
    emitted Hook.rx ctx t =
      [{ bytes := ctx.skb_len % 2 ^ 32,
         pid := (bpf_get_current_pid_tgid ctx >>> 32) % 2 ^ 32,
         comm := bpf_get_current_comm ctx TASK_COMM_LEN,
         is_tx := false }] := by
  unfold emitted runHook probe_rx bpf_perf_event_output
  by_cases hcap : t.buf.length < t.cap <;> simp [hcap]

lemma pid_tgid_lt (ctx : BpfCtx) : bpf_get_current_pid_tgid ctx < 2 ^ 64 := by
  unfold bpf_get_current_pid_tgid
  exact Nat.mod_lt _ (by norm_num)

lemma shift_pid_lt (ctx : BpfCtx) : bpf_get_current_pid_tgid ctx >>> 32 < 2 ^ 32 := by
  have h := pid_tgid_lt ctx
  rw [Nat.shiftRight_eq_div_pow]
  exact Nat.div_lt_of_lt_mul (by norm_num at h ⊢; omega)

lemma pid_mod_eq (ctx : BpfCtx) :
    (bpf_get_current_pid_tgid ctx >>> 32) % 2 ^ 32 = bpf_get_current_pid_tgid ctx >>> 32 :=
  Nat.mod_eq_of_lt (shift_pid_lt ctx)

lemma comm_length (ctx : BpfCtx) :
    (bpf_get_current_comm ctx TASK_COMM_LEN).length = TASK_COMM_LEN := by
  unfold bpf_get_current_comm TASK_COMM_LEN
  simp
  omega

lemma getD_replicate_zero (n i : Nat) : (List.replicate n (0 : Nat)).getD i 0 = 0 := by
  rcases Nat.lt_or_ge i n with hin | hin
  · simp [List.getD_eq_getElem?_getD, List.getElem?_replicate, hin]
  · rw [List.getD_eq_default]
    simpa using hin

lemma comm_getD_lt (ctx : BpfCtx) (i : Nat) (hi : i < TASK_COMM_LEN) :
    (bpf_get_current_comm ctx TASK_COMM_LEN).getD i 0 = ctx.task_comm.getD i 0 := by
  unfold bpf_get_current_comm
  rcases Nat.lt_or_ge i (ctx.task_comm.take TASK_COMM_LEN).length with hlt | hge
  · rw [List.getD_append _ _ _ _ hlt]
    simp only [List.getD_eq_getElem?_getD]
    rw [List.getElem?_take_of_lt hi]
  · rw [List.getD_append_right _ _ _ _ hge, getD_replicate_zero,
      List.getD_eq_default]
    simp only [List.length_take] at hge
    omega

lemma comm_getD_ge (ctx : BpfCtx) (i : Nat)
    (hi : min ctx.task_comm.length TASK_COMM_LEN ≤ i) :
    (bpf_get_current_comm ctx TASK_COMM_LEN).getD i 0 = 0 := by
  rcases Nat.lt_or_ge i TASK_COMM_LEN with hlt | hge
  · rw [comm_getD_lt ctx i hlt, List.getD_eq_default]
    omega
  · rw [List.getD_eq_default]
    rw [comm_length]
    exact hge

lemma comm_take_is_pre (ctx : BpfCtx) :
    (bpf_get_current_comm ctx TASK_COMM_LEN).take
      (min TASK_COMM_LEN ctx.task_comm.length) <+: ctx.task_comm := by
  unfold bpf_get_current_comm
  rw [List.take_append_of_le_length (by simp), List.take_take]
  have hmin : min (min TASK_COMM_LEN ctx.task_comm.length) TASK_COMM_LEN
      = min TASK_COMM_LEN ctx.task_comm.length := by omega
  rw [hmin]
  exact List.take_prefix _ _

lemma emitted_fields (h : Hook) (ctx : BpfCtx) (t : Transport) (e : traffic_event)
    (he : e ∈ emitted h ctx t) :
    e.pid = bpf_get_current_pid_tgid ctx >>> 32 ∧
      e.bytes = ctx.skb_len % 2 ^ 32 ∧
      e.comm = bpf_get_current_comm ctx TASK_COMM_LEN := by
  cases h
  · rw [emitted_tx] at he
    simp at he
    subst he
    exact ⟨pid_mod_eq ctx, rfl, rfl⟩
  · rw [emitted_rx] at he
    simp at he
    subst he
    exact ⟨pid_mod_eq ctx, rfl, rfl⟩

/-! ### Claims -/

/-- C1: every record emitted by either hook handler has pid equal to the
high 32 bits (the thread-group id) of the 64-bit pid/tgid word read from
the current execution context at hook time, and whenever that word is
nonzero the pid is never the raw combined 64-bit value. -/
theorem C1_pid_is_thread_group_id (h : Hook) (ctx : BpfCtx) (t : Transport)
    (e : traffic_event) (he : e ∈ emitted h ctx t) :
    e.pid = bpf_get_current_pid_tgid ctx >>> 32 ∧
      (bpf_get_current_pid_tgid ctx ≠ 0 → e.pid ≠ bpf_get_current_pid_tgid ctx) := by
  have hp := (emitted_fields h ctx t e he).1
  refine ⟨hp, fun hz heq => ?_⟩
  rw [hp, Nat.shiftRight_eq_div_pow] at heq
  have hlt : bpf_get_current_pid_tgid ctx / 2 ^ 32 < bpf_get_current_pid_tgid ctx :=
    Nat.div_lt_self (Nat.pos_of_ne_zero hz) (by norm_num)
  omega

/-- C1 witness: in context ctx0 (tgid 5, tid 7) the transmitted record
has pid 5, the high half, and not the raw 64-bit word. -/
theorem C1_pid_is_thread_group_id_witness :
    e0.pid = bpf_get_current_pid_tgid ctx0 >>> 32 ∧
      e0.pid ≠ bpf_get_current_pid_tgid ctx0 :=
  ⟨(C1_pid_is_thread_group_id Hook.tx ctx0 t0 e0 (by decide)).1,
   (C1_pid_is_thread_group_id Hook.tx ctx0 t0 e0 (by decide)).2 (by decide)⟩

/-- C2: probe_tx records carry is_tx = true, probe_rx records carry
is_tx = false, and a record with is_tx = false can only originate from
the receive-entry hook. -/
theorem C2_direction_matches_hook (h : Hook) (ctx : BpfCtx) (t : Transport)
    (e : traffic_event) (he : e ∈ emitted h ctx t) :
    (h = Hook.tx → e.is_tx = true) ∧ (h = Hook.rx → e.is_tx = false) ∧
      (e.is_tx = false → h = Hook.rx) := by
  cases h
  · rw [emitted_tx] at he
    simp at he
    subst he
    simp
  · rw [emitted_rx] at he
    simp at he
    subst he
    simp

/-- C2 witness: the record probe_rx builds in ctx0 has is_tx = false. -/
theorem C2_direction_matches_hook_witness : e0rx.is_tx = false :=
  (C2_direction_matches_hook Hook.rx ctx0 t0 e0rx (by decide)).2.1 rfl

/-- C3: every emitted record's bytes field equals the hooked sk_buff's
u32 len field (and nothing else: the equality holds for every context,
so bytes is a function of skb->len alone). -/
theorem C3_bytes_equals_skb_len (h : Hook) (ctx : BpfCtx) (t : Transport)
    (e : traffic_event) (he : e ∈ emitted h ctx t) :
    e.bytes = ctx.skb_len % 2 ^ 32 :=
  (emitted_fields h ctx t e he).2.1

/-- C3 witness: in ctx0 (skb->len 1500) the emitted record counts 1500
bytes. -/
theorem C3_bytes_equals_skb_len_witness : e0.bytes = ctx0.skb_len % 2 ^ 32 :=
  C3_bytes_equals_skb_len Hook.tx ctx0 t0 e0 (by decide)

/-- C4: every emitted record's comm field is exactly TASK_COMM_LEN = 16
bytes wide and its copied portion is a prefix of the current task's
actual command name: truncation, never corruption. -/
theorem C4_comm_is_truncated_name (h : Hook) (ctx : BpfCtx) (t : Transport)
    (e : traffic_event) (he : e ∈ emitted h ctx t) :
    e.comm.length = TASK_COMM_LEN ∧
      e.comm.take (min TASK_COMM_LEN ctx.task_comm.length) <+: ctx.task_comm := by
  rw [(emitted_fields h ctx t e he).2.2]
  exact ⟨comm_length ctx, comm_take_is_pre ctx⟩

/-- C4 witness: in ctx0 the comm buffer is 16 bytes and its first four
bytes are the name "curl". -/
theorem C4_comm_is_truncated_name_witness :
    e0.comm.length = TASK_COMM_LEN ∧
      e0.comm.take (min TASK_COMM_LEN ctx0.task_comm.length) <+: ctx0.task_comm :=
  C4_comm_is_truncated_name Hook.tx ctx0 t0 e0 (by decide)

/-- C5: both handlers return 0 on every invocation, whether or not the
publish succeeds; when the ring is full the record is silently dropped
(the buffer is unchanged) and the return value is still 0. -/
theorem C5_handler_returns_zero (h : Hook) (ctx : BpfCtx) (t : Transport) :
    (runHook h ctx t).snd = 0 ∧
      (t.cap ≤ t.buf.length → (runHook h ctx t).fst.buf = t.buf) := by
  cases h
  · refine ⟨rfl, fun hfull => ?_⟩
    have hcap : ¬ t.buf.length < t.cap := by omega
    simp [runHook, probe_tx, bpf_perf_event_output, hcap]
  · refine ⟨rfl, fun hfull => ?_⟩
    have hcap : ¬ t.buf.length < t.cap := by omega
    simp [runHook, probe_rx, bpf_perf_event_output, hcap]

/-- C5 witness: on the zero-capacity transport the publish fails, yet
probe_tx still returns 0 and the ring is untouched. -/
theorem C5_handler_returns_zero_witness :
    (runHook Hook.tx ctx0 tFull).snd = 0 ∧ (runHook Hook.tx ctx0 tFull).fst.buf = tFull.buf :=
  ⟨(C5_handler_returns_zero Hook.tx ctx0 tFull).1,
   (C5_handler_returns_zero Hook.tx ctx0 tFull).2 (by decide)⟩

/-- C6: a single firing of either handler attempts exactly one publish of
exactly one record (the attempt log grows by one entry) and never
retries: the ring gains that one record or nothing. -/
theorem C6_exactly_one_publish (h : Hook) (ctx : BpfCtx) (t : Transport) :
    ∃ e : traffic_event,
      (runHook h ctx t).fst.attempts = t.attempts ++ [e] ∧
        ((runHook h ctx t).fst.buf = t.buf ++ [e] ∨ (runHook h ctx t).fst.buf = t.buf) := by
  cases h
  · refine ⟨{ bytes := ctx.skb_len % 2 ^ 32,
              pid := (bpf_get_current_pid_tgid ctx >>> 32) % 2 ^ 32,
              comm := bpf_get_current_comm ctx TASK_COMM_LEN,
              is_tx := true }, ?_, ?_⟩
    · by_cases hcap : t.buf.length < t.cap <;>
        simp [runHook, probe_tx, bpf_perf_event_output, hcap]
    · by_cases hcap : t.buf.length < t.cap
      · exact Or.inl (by simp [runHook, probe_tx, bpf_perf_event_output, hcap])
      · exact Or.inr (by simp [runHook, probe_tx, bpf_perf_event_output, hcap])
  · refine ⟨{ bytes := ctx.skb_len % 2 ^ 32,
              pid := (bpf_get_current_pid_tgid ctx >>> 32) % 2 ^ 32,
              comm := bpf_get_current_comm ctx TASK_COMM_LEN,
              is_tx := false }, ?_, ?_⟩
    · by_cases hcap : t.buf.length < t.cap <;>
        simp [runHook, probe_rx, bpf_perf_event_output, hcap]
    · by_cases hcap : t.buf.length < t.cap
      · exact Or.inl (by simp [runHook, probe_rx, bpf_perf_event_output, hcap])
      · exact Or.inr (by simp [runHook, probe_rx, bpf_perf_event_output, hcap])

/-- C7 counterexample: the claim that the source holds two incompatible
record shapes (an earlier tracepoint-attached, transmit-only shape with
no direction and no comm field, alongside the kprobe shape) is false of
probe.c: the file declares exactly one record shape, that shape has both
the direction flag and the comm field, and neither handler is attached
through a tracepoint section. -/
theorem C7_two_shapes_counterexample :
    sourceRecordShapes.length = 1 ∧
      (¬ ∃ s ∈ sourceRecordShapes, s.hasDirection = false) ∧
      (¬ ∃ s ∈ sourceRecordShapes, s.hasComm = false) ∧
      ¬ ∃ h ∈ sourceHooks, hookAttach h = AttachKind.tracepoint := by
  decide

/-- C7 amended: the source contains a single record shape, carrying both
the direction flag and the command name, and both handlers are attached
via kprobes (transmit-entry net_dev_start_xmit and receive-entry
netif_receive_skb); no tracepoint-attached transmit-only variant exists
in the file. -/
theorem C7_single_kprobe_shape :
    sourceRecordShapes = [{ hasDirection := true, hasComm := true }] ∧
      hookAttach Hook.tx = AttachKind.kprobe ∧
      hookAttach Hook.rx = AttachKind.kprobe ∧
      hookSection Hook.tx = "kprobe/net_dev_start_xmit" ∧
      hookSection Hook.rx = "kprobe/netif_receive_skb" :=
  ⟨rfl, rfl, rfl, rfl, rfl⟩

/-- C8 counterexample: when the receive hook fires with the idle task
current (combined pid/tgid word 0, as in softirq receive processing on an
idle CPU), probe_rx emits a record whose pid field is 0: the handlers
contain no check that would keep a zero thread-group id out of the
stream. -/
theorem C8_pid_zero_counterexample :
    eIdle ∈ emitted Hook.rx ctxIdle t0 ∧ eIdle.pid = 0 := by
  decide

/-- C8 amended: an emitted record's pid field is zero exactly when the
thread-group id (the high 32 bits of the pid/tgid word) of the task
current at hook time is zero; in particular pid is nonzero whenever that
id is nonzero, but nothing in either handler excludes the zero case. -/
theorem C8_pid_zero_iff_tgid_zero (h : Hook) (ctx : BpfCtx) (t : Transport)
    (e : traffic_event) (he : e ∈ emitted h ctx t) :
    e.pid = 0 ↔ bpf_get_current_pid_tgid ctx >>> 32 = 0 := by
  rw [(emitted_fields h ctx t e he).1]

/-- C8 witness: in ctx0 (tgid 5) the emitted record's pid is nonzero. -/
theorem C8_pid_zero_iff_tgid_zero_witness :
    e0.pid = 0 ↔ bpf_get_current_pid_tgid ctx0 >>> 32 = 0 :=
  C8_pid_zero_iff_tgid_zero Hook.tx ctx0 t0 e0 (by decide)

/-- C9: fired in the same execution context, probe_tx and probe_rx build
records that agree on pid, bytes and comm and differ exactly in the
direction flag: is_tx = true for probe_tx, is_tx = false for probe_rx. -/
theorem C9_handlers_agree_except_direction (ctx : BpfCtx) (t u : Transport) :
    ∃ etx erx : traffic_event,
      emitted Hook.tx ctx t = [etx] ∧ emitted Hook.rx ctx u = [erx] ∧
        etx.pid = erx.pid ∧ etx.bytes = erx.bytes ∧ etx.comm = erx.comm ∧
        etx.is_tx = true ∧ erx.is_tx = false :=
  ⟨_, _, emitted_tx ctx t, emitted_rx ctx u, rfl, rfl, rfl, rfl, rfl⟩

/-- C10: the record is zero-initialized before the field writes, so every
comm byte of an emitted record is either a byte explicitly copied from
the task's command name or zero: the 16-byte buffer never carries stale
data, and every position at or beyond the copied name is exactly zero. -/
theorem C10_comm_bytes_written_or_zero (h : Hook) (ctx : BpfCtx) (t : Transport)
    (e : traffic_event) (he : e ∈ emitted h ctx t) (i : Nat) :
    e.comm.length = TASK_COMM_LEN ∧
      (i < TASK_COMM_LEN →
        (e.comm.getD i 0 = ctx.task_comm.getD i 0 ∨ e.comm.getD i 0 = 0)) ∧
      (min ctx.task_comm.length TASK_COMM_LEN ≤ i → e.comm.getD i 0 = 0) := by
  rw [(emitted_fields h ctx t e he).2.2]
  exact ⟨comm_length ctx, fun hi => Or.inl (comm_getD_lt ctx i hi),
    fun hge => comm_getD_ge ctx i hge⟩

/-- C10 witness: in ctx0 the comm buffer is 16 bytes, byte 2 is the
letter copied from "curl", and byte 14 (beyond the 4-byte name) is 0. -/
theorem C10_comm_bytes_written_or_zero_witness :
    e0.comm.length = TASK_COMM_LEN ∧
      (e0.comm.getD 2 0 = ctx0.task_comm.getD 2 0 ∨ e0.comm.getD 2 0 = 0) ∧
      e0.comm.getD 14 0 = 0 :=
  ⟨(C10_comm_bytes_written_or_zero Hook.tx ctx0 t0 e0 (by decide) 2).1,
   (C10_comm_bytes_written_or_zero Hook.tx ctx0 t0 e0 (by decide) 2).2.1 (by decide),
   (C10_comm_bytes_written_or_zero Hook.tx ctx0 t0 e0 (by decide) 14).2.2 (by decide)⟩
